import Mathlib

/-!
Shallow embedding of the Slack summarizer bot (src/src/index.ts).

External collaborators (the Slack web API and the OpenAI chat API) are
modelled as oracles packaged in an `Env`: each call either throws
(`Except.error ()`) or returns a value.  JavaScript primitives that the
source relies on (`parseInt`, `String.prototype.trim`, `split`, `includes`,
the `||` defaulting idiom, `Object.keys` on a `Map`) are embedded with
their JavaScript semantics.
-/

set_option linter.unusedVariables false
set_option maxRecDepth 100000

deriving instance DecidableEq for Except

namespace SlackBot

/-- Whitespace as recognised by the JavaScript `\s` regex class,
`String.prototype.trim` and `parseInt` (the common code points:
tab, LF, VT, FF, CR, space, NBSP, LS, PS, BOM). -/
def jsWhitespace (c : Char) : Bool :=
  c.toNat == 9 || c.toNat == 10 || c.toNat == 11 || c.toNat == 12 ||
  c.toNat == 13 || c.toNat == 32 || c.toNat == 160 || c.toNat == 8232 ||
  c.toNat == 8233 || c.toNat == 65279

/-- ASCII digit, the regex class [0-9] and the radix-10 digits of `parseInt`. -/
def isAsciiDigit (c : Char) : Bool :=
  48 ≤ c.toNat && c.toNat ≤ 57

/-- Hexadecimal digit (radix-16 digits of `parseInt`). -/
def isRadixDigit (base : Nat) (c : Char) : Bool :=
  if base == 16 then
    isAsciiDigit c || (97 ≤ c.toNat && c.toNat ≤ 102) || (65 ≤ c.toNat && c.toNat ≤ 70)
  else
    isAsciiDigit c

/-- Numeric value of one digit character (0-9, a-f, A-F). -/
def digitVal (c : Char) : Nat :=
  if 97 ≤ c.toNat then c.toNat - 87
  else if 65 ≤ c.toNat then c.toNat - 55
  else c.toNat - 48

/-- Value of a digit string in the given base. -/
def digitsVal (base : Nat) (ds : List Char) : Nat :=
  ds.foldl (fun acc c => acc * base + digitVal c) 0

/-- JavaScript `String.prototype.trim`. -/
def jsTrim (s : String) : String :=
  ⟨((s.data.dropWhile jsWhitespace).reverse.dropWhile jsWhitespace).reverse⟩

/-- Last step of `parseInt`: the longest prefix of radix digits,
NaN (`none`) when it is empty, its signed value otherwise. -/
def parseDigits (base : Nat) (sign : Int) (cs : List Char) : Option Int :=
  if (cs.takeWhile (isRadixDigit base)).isEmpty then none
  else some (sign * (digitsVal base (cs.takeWhile (isRadixDigit base)) : Int))

/-- Radix detection of `parseInt`: a leading `0x`/`0X` selects radix 16
(and is consumed), anything else radix 10. -/
def jsParseIntBody (cs1 : List Char) (sign : Int) : Option Int :=
  if cs1.head? = some '0' ∧ (cs1.tail.head? = some 'x' ∨ cs1.tail.head? = some 'X')
  then parseDigits 16 sign cs1.tail.tail
  else parseDigits 10 sign cs1

/-- JavaScript `parseInt` on a character list: skip leading whitespace,
read an optional sign, then delegate to the radix detection. -/
def jsParseIntChars (cs0 : List Char) : Option Int :=
  jsParseIntBody
    (if (cs0.dropWhile jsWhitespace).head? = some '-' ∨ (cs0.dropWhile jsWhitespace).head? = some '+'
     then (cs0.dropWhile jsWhitespace).tail
     else cs0.dropWhile jsWhitespace)
    (if (cs0.dropWhile jsWhitespace).head? = some '-' then -1 else 1)

/-- JavaScript `parseInt(s)` with no radix argument: skip leading
whitespace, read an optional sign, detect a `0x`/`0X` prefix (radix 16,
else 10), take the longest run of radix digits, ignore the rest of the
string; `none` models the NaN result when no digit is found. -/
def jsParseInt (s : String) : Option Int :=
  jsParseIntChars s.data

/-- JavaScript `parseInt(s) || 10` (NaN and 0 are falsy). -/
def jsOr10 (v : Option Int) : Int :=
  match v with
  | none => 10
  | some n => if n = 0 then 10 else n

/-- JavaScript `v || "Unknown"` on a possibly-absent string
(`undefined` and the empty string are falsy). -/
def jsOrUnknown (v : Option String) : String :=
  match v with
  | none => "Unknown"
  | some s => if s = "" then "Unknown" else s

/-- JavaScript `v || "No summary found."` on a possibly-null string. -/
def jsOrNoSummary (v : Option String) : String :=
  match v with
  | none => "No summary found."
  | some s => if s = "" then "No summary found." else s

/-- Fuelled worker for `jsSplit`: scan left to right, emitting the
accumulated chunk at each non-overlapping occurrence of the separator.
Each step consumes at least one character, so any fuel of at least the
length of the scanned list makes the fuel-exhaustion branch unreachable. -/
def jsSplitGo (sep : List Char) : Nat → List Char → List Char → List (List Char)
  | _, [], acc => [acc.reverse]
  | 0, cs, acc => [acc.reverse ++ cs]
  | fuel + 1, c :: cs, acc =>
    if sep.isPrefixOf (c :: cs) then
      acc.reverse :: jsSplitGo sep fuel ((c :: cs).drop sep.length) []
    else
      jsSplitGo sep fuel cs (c :: acc)

/-- JavaScript `s.split(sep)` for a non-empty string separator (the
source only splits on " " and "--limit"): the pieces between consecutive
non-overlapping occurrences of the separator, empty pieces kept. -/
def jsSplit (s sep : String) : List String :=
  if sep.data.isEmpty then [s]
  else (jsSplitGo sep.data (s.data.length + 1) s.data []).map (fun l => ⟨l⟩)

/-- JavaScript `s.startsWith(pre)`. -/
def jsStartsWith (s pre : String) : Bool :=
  pre.data.isPrefixOf s.data

/-- JavaScript `s.includes(sub)` (substring containment). -/
def jsIncludes (s sub : String) : Bool :=
  sub == "" || (jsSplit s sub).length ≥ 2

/-- JavaScript `s.replace(pat, rep)` with a string pattern: replaces only
the first occurrence of `pat`, and returns `s` unchanged when `pat` does
not occur. -/
def replaceFirst (s pat rep : String) : String :=
  match jsSplit s pat with
  | [] => s
  | [x] => x
  | x :: rest => x ++ rep ++ String.intercalate pat rest

/-- interface SlackMessage (index.ts lines 37-42). -/
structure SlackMessage where
  text : String
  user : String
  channel : String
  thread_ts : Option String
deriving DecidableEq

/-- One entry of the chat-completion request: the transcript entries are
`{role: "user", content, user}` objects, the system entry has no `user`
field (modelled as `none`). -/
structure ChatMsg where
  role : String
  content : String
  user : Option String
deriving DecidableEq

/-- JavaScript `Map<string, string>` (insertion-ordered key/value pairs). -/
structure JsMap where
  entries : List (String × String)
deriving DecidableEq

/-- JavaScript `Map.prototype.get`: value of the (unique) entry with this
key, `undefined` (`none`) when absent. -/
def JsMap.get? (m : JsMap) (k : String) : Option String :=
  (m.entries.find? (fun e => e.1 = k)).map (fun e => e.2)

/-- JavaScript `Map.prototype.set`: update the existing entry in place
when the key is present, otherwise append a new entry. -/
def JsMap.set (m : JsMap) (k v : String) : JsMap :=
  if m.entries.any (fun e => e.1 = k) then
    ⟨m.entries.map (fun e => if e.1 = k then (k, v) else e)⟩
  else
    ⟨m.entries ++ [(k, v)]⟩

/-- JavaScript `Object.keys` applied to a `Map` instance (index.ts line
145 iterates `Object.keys(usersMap)` where `usersMap : Map<string,
string>`).  A `Map` stores its entries in internal slots, not as own
enumerable properties, so `Object.keys` always returns the empty array. -/
def objectKeys (m : JsMap) : List String := []

/-- Oracles for the external collaborators: each models one kind of
external call and either throws (`Except.error ()`) or returns.
`fetchResult` is the Slack history/replies response (`none` models a
response without a `messages` field); `lookup u` is the
`users.info({user: u})` response (`Except.ok none` models a response
without a user name); `model` is the chat-completion call
(`Except.ok none` models a null `content`, `Except.error` any throw,
including an empty `choices` array). -/
structure Env where
  fetchResult : Except Unit (Option (List SlackMessage))
  lookup : String → Except Unit (Option String)
  model : Except Unit (Option String)

/-- Externally visible calls made during one pipeline run. -/
inductive Action where
  | fetchHistory (channel : String) (limit : Int)
  | fetchReplies (channel : String) (ts : String) (limit : Int)
  | modelCall (prompt : List ChatMsg)
  | post (channel : String) (text : String) (threadTs : Option String)
deriving DecidableEq

def isPost : Action → Bool
  | .post _ _ _ => true
  | _ => false

def isFetch : Action → Bool
  | .fetchHistory _ _ => true
  | .fetchReplies _ _ _ => true
  | _ => false

def posts (tr : List Action) : List Action := tr.filter isPost

def fetches (tr : List Action) : List Action := tr.filter isFetch

/-- fetchRecentMessages (lines 44-74): calls `conversations.replies` when
a thread timestamp is present, `conversations.history` otherwise; returns
the `messages` field of the response when present, the empty list when it
is absent, and absorbs any thrown error into the empty list. -/
def fetchRecentMessages (env : Env) : List SlackMessage :=
  match env.fetchResult with
  | .error _ => []
  | .ok none => []
  | .ok (some msgs) => msgs

/-- The fetch call issued by fetchRecentMessages (replies when threaded,
history otherwise). -/
def fetchAction (channel : String) (limit : Int) (threadTs : Option String) : Action :=
  match threadTs with
  | some ts => .fetchReplies channel ts limit
  | none => .fetchHistory channel limit

/-- systemPrompt (lines 96-107): constant, ignores its argument. -/
def systemPrompt (question : Option String) : ChatMsg :=
  { role := "system"
    content := "You are a helpful assistant. You will summarize the conversation using Korean only. You should answer the question if the last message starts with `@#*&Question: ` else you just create a helpful summary WITHOUT ORIGINAL MESSAGES. The summary should contain speaker names. Do not include the messages directly in the summary."
    user := none }

/-- Loop body of getUserMap (lines 113-118): one `users.info` call per
list element, in order; a thrown call propagates (there is no try/catch
inside getUserMap). -/
def getUserMapGo (env : Env) : List String → JsMap → Except Unit JsMap
  | [], m => .ok m
  | u :: rest, m =>
    match env.lookup u with
    | .error e => .error e
    | .ok name => getUserMapGo env rest (m.set u (jsOrUnknown name))

/-- getUserMap (lines 111-120). -/
def getUserMap (env : Env) (users : List String) : Except Unit JsMap :=
  getUserMapGo env users ⟨[]⟩

/-- The display name one users.info response yields for one identifier:
the name carried by the response, with the literal fallback "Unknown"
when the response carries no (non-empty) name; used to state what the
user map contains when no lookup throws. -/
def resolvedName (env : Env) (u : String) : String :=
  match env.lookup u with
  | .ok name => jsOrUnknown name
  | .error _ => "Unknown"

/-- The per-message rewrite loop of summarizeText (lines 145-150): for
each element of `Object.keys(usersMap)` (always the empty array, see
`objectKeys`) replace the first occurrence of the mention token with the
resolved name. -/
def rewriteMentions (usersMap : JsMap) (text : String) : String :=
  (objectKeys usersMap).foldl
    (fun t userId => replaceFirst t ("<@" ++ userId ++ ">") (jsOrUnknown (usersMap.get? userId)))
    text

/-- Loop body of summarizeText over one chat message (lines 133-156):
skip command messages, skip messages whose resolved speaker is
"summarizer", skip messages addressed to the bot mention token, then push
the speaker-prefixed entry. -/
def summarizeStep (usersMap : JsMap) (chat : SlackMessage) : Option ChatMsg :=
  if jsStartsWith chat.text "!summarize" then none
  else
    let speaker := jsOrUnknown (usersMap.get? chat.user)
    if speaker = "summarizer" then none
    else if jsStartsWith chat.text "<@U07AF4DJWRH>" then none
    else some { role := "user", content := speaker ++ ": " ++ rewriteMentions usersMap chat.text, user := some speaker }

/-- summarizeText (lines 122-176): build the user map, build the
transcript, append the marked question entry when the question is truthy,
call the model; any throw inside the body (user lookup or model call) is
caught and mapped to the fallback string.  Returns the list of external
calls made together with the resulting string. -/
def summarizeText (env : Env) (chats : List SlackMessage) (question : Option String) :
    List Action × String :=
  match getUserMap env (chats.map (fun c => c.user)) with
  | .error _ => ([], "Error summarizing text.")
  | .ok usersMap =>
    let messages := chats.filterMap (summarizeStep usersMap)
    let messages :=
      match question with
      | some q =>
        if q = "" then messages
        else messages ++ [{ role := "user", content := "@#*&Question: " ++ q, user := some "definetly not a bot" }]
      | none => messages
    let prompt := systemPrompt question :: messages
    match env.model with
    | .error _ => ([.modelCall prompt], "Error summarizing text.")
    | .ok content => ([.modelCall prompt], jsOrNoSummary content)

/-- handleSummarizeRequest (lines 194-206): fetch, and only when the
fetched list is non-empty, summarize and post the result. -/
def handleSummarizeRequest (env : Env) (channel : String) (question : Option String)
    (threadTs : Option String) (limit : Int) : List Action :=
  let msgs := fetchRecentMessages env
  fetchAction channel limit threadTs ::
    (if msgs.length > 0 then
      let r := summarizeText env msgs question
      r.1 ++ [.post channel r.2 threadTs]
    else [])

/-- The options object (lines 208-212), an insertion-ordered record. -/
def options : List (String × String) :=
  [("--help", "Show help"), ("--version", "Show version"),
   ("--limit", "Set the limit of messages to summarize")]

/-- The help text assembled by the app_mention handler (lines 222-227). -/
def helpText : String :=
  "```Usage: @Summarizer [summarize|question] [options]\n If no question is provided but \x27summarize\x27, the last 10 messages will be summarized.\n"
    ++ String.intercalate "\n" (options.map (fun kv => kv.1 ++ ": " ++ kv.2))
    ++ "```"

/-- Line 218: `text.split(" ").slice(1).join(" ")`. -/
def mentionPrompt (text : String) : String :=
  String.intercalate " " ((jsSplit text " ").drop 1)

/-- Lines 239-243: when the prompt contains "--limit", split on it; the
part before becomes the working prompt and the part after (between the
first and second occurrence) is trimmed and parsed, defaulting to 10. -/
def parseMentionLimit (prompt : String) : String × Int :=
  if jsIncludes prompt "--limit" then
    let parts := jsSplit prompt "--limit"
    (parts.headD "", jsOr10 (jsParseInt (jsTrim (parts.getD 1 ""))))
  else (prompt, 10)

/-- Chars after the first occurrence of `pat` in `cs`, `none` when `pat`
does not occur (leftmost match position of a regex starting with the
literal `pat`). -/
def afterFirstOccur (pat : List Char) : List Char → Option (List Char)
  | [] => if pat.isEmpty then some [] else none
  | c :: cs =>
    if pat.isPrefixOf (c :: cs) then some ((c :: cs).drop pat.length)
    else afterFirstOccur pat cs

/-- Find the closing quote for the regex fragment `".*"`: `.` does not
match line terminators and `.*` is greedy, so the closing quote is the
last double quote on the current line.  Returns the chars strictly inside
the quotes and the chars after the closing quote, or `none` when no
closing quote exists on the line. -/
def lastQuoteSplit (cs : List Char) : Option (List Char × List Char) :=
  let line := cs.takeWhile (fun c => c ≠ '\n' ∧ c ≠ '\r')
  let rest := cs.drop line.length
  let r := line.reverse
  match r.dropWhile (fun c => c ≠ '"') with
  | [] => none
  | _ :: revInside =>
    some (revInside.reverse, (r.takeWhile (fun c => c ≠ '"')).reverse ++ rest)

/-- The optional capture group `(".*")?` at the given position: when the
next char is a double quote with a matching closing quote on the same
line, the group captures both quotes and everything between them;
otherwise the group is unmatched and consumes nothing. -/
def quotedGroup (afterWs : List Char) : Option (List Char) × List Char :=
  match afterWs with
  | '"' :: tail =>
    match lastQuoteSplit tail with
    | some (inside, after) => (some ('"' :: (inside ++ ['"'])), after)
    | none => (none, afterWs)
  | _ => (none, afterWs)

/-- The message listener pattern (line 256):
`/!summarize\s*(".*")?\s*([0-9]*)/` applied to the message text.
Returns `none` when the text does not match (the listener is not
invoked), otherwise the two capture groups: the optional quoted question
including its quotes, and the (possibly empty) digit string. -/
def matchSummarizePattern (s : String) : Option (Option String × String) :=
  (afterFirstOccur "!summarize".data s.data).map fun rest =>
    let g := quotedGroup (rest.dropWhile jsWhitespace)
    let g2 := (g.2.dropWhile jsWhitespace).takeWhile isAsciiDigit
    (g.1.map (fun l => ⟨l⟩), (⟨g2⟩ : String))

/-- The app.message handler (lines 255-269): `context.matches[1]` is the
first capture group (`undefined` when unmatched), `context.matches[2]`
the digit string, parsed with the `|| 10` default. -/
def appMessageHandler (env : Env) (channel : String) (threadTs : Option String)
    (text : String) : List Action :=
  match matchSummarizePattern text with
  | none => []
  | some g =>
    handleSummarizeRequest env channel g.1 threadTs (jsOr10 (jsParseInt g.2))

/-- The app_mention handler (lines 214-253). -/
def appMentionHandler (env : Env) (channel : String) (threadTs : Option String)
    (text : String) : List Action :=
  let prompt := mentionPrompt text
  if jsTrim prompt = "--help" then [.post channel helpText threadTs]
  else if jsTrim prompt = "--version" then [.post channel "v1.0.0" threadTs]
  else
    let r := parseMentionLimit prompt
    let question := if jsTrim r.1 ≠ "summarize" then some r.1 else none
    handleSummarizeRequest env channel question threadTs r.2

/-- A user map with one resolved entry, for concrete checks. -/
def mapAlice : JsMap := ⟨[("U1", "Alice")]⟩

/-- A plain fetched channel message. -/
def msgHello : SlackMessage := ⟨"hello", "U1", "C1", none⟩

/-- A fetched message whose text carries a mention token of its own author. -/
def msgMention : SlackMessage := ⟨"hi <@U1>", "U1", "C1", none⟩

/-- A fetched message whose text begins with the command marker. -/
def msgCommand : SlackMessage := ⟨"!summarize 5", "U2", "C1", none⟩

/-- Environment where every external call succeeds and the fetch returns
an empty window. -/
def envIdle : Env := ⟨.ok (some []), fun u => .ok none, .ok none⟩

/-- Environment for the pattern-trigger scenario: one plain message, its
author resolves to Alice, the model answers "S". -/
def envScenario : Env := ⟨.ok (some [msgHello]), fun u => .ok (some "Alice"), .ok (some "S")⟩

/-- Environment with a mention-bearing fetched message and a resolving
lookup. -/
def envMention : Env := ⟨.ok (some [msgMention]), fun u => .ok (some "Alice"), .ok (some "S")⟩

/-- Environment whose model call throws. -/
def envModelFail : Env := ⟨.ok (some [msgHello]), fun u => .ok (some "Alice"), .error ()⟩

/-- Environment whose fetch call throws (absorbed to the empty list by
fetchRecentMessages). -/
def envFetchFail : Env := ⟨.error (), fun u => .ok none, .ok none⟩

/-- Environment whose user lookup throws. -/
def envLookupFail : Env := ⟨.ok (some []), fun u => .error (), .ok none⟩

/-- C6: mention-token rewriting is idempotent: applying the rewrite step
of the Transcript Builder twice to the same text gives the same result as
applying it once (the loop iterates the empty key list, so the rewrite is
the identity and in particular idempotent). -/
theorem rewrite_idempotent (usersMap : JsMap) (text : String) :
    rewriteMentions usersMap (rewriteMentions usersMap text) = rewriteMentions usersMap text := rfl

/-- C10: for every message that survives the skip rules, the emitted
content is exactly the resolved speaker name, a colon and a space, then
the original text unchanged; the rewrite step is the identity (the
substitution loop iterates Object.keys of a Map, always empty), so the
text field is never changed. -/
theorem transcript_content_unchanged (usersMap : JsMap) (chat : SlackMessage) :
    rewriteMentions usersMap chat.text = chat.text ∧
    ∀ e : ChatMsg, summarizeStep usersMap chat = some e →
      e.content = jsOrUnknown (usersMap.get? chat.user) ++ ": " ++ chat.text := by
  refine ⟨rfl, ?_⟩
  intro e he
  unfold summarizeStep at he
  by_cases h1 : jsStartsWith chat.text "!summarize" <;> simp [h1] at he
  by_cases h2 : jsOrUnknown (usersMap.get? chat.user) = "summarizer" <;> simp [h2] at he
  by_cases h3 : jsStartsWith chat.text "<@U07AF4DJWRH>" <;> simp [h3] at he
  rw [← he]
  rfl

/-- Witness for C10 at a concrete surviving message with a mention token. -/
theorem transcript_content_unchanged_witness :
    ChatMsg.content ⟨"user", "Alice: hi <@U1>", some "Alice"⟩ =
      jsOrUnknown (mapAlice.get? msgMention.user) ++ ": " ++ msgMention.text :=
  (transcript_content_unchanged mapAlice msgMention).2
    ⟨"user", "Alice: hi <@U1>", some "Alice"⟩ (by decide)

/-- C1 (code bug witness): evaluating the Transcript Builder on a fetched
message whose text holds the mention token of its own resolved author:
the emitted entry keeps the raw token, it is not rewritten to the
resolved display name as the spec requires. -/
theorem mention_not_rewritten :
    summarizeText envMention [msgMention] none =
      ([Action.modelCall [systemPrompt none, ⟨"user", "Alice: hi <@U1>", some "Alice"⟩]], "S") ∧
    "Alice: hi <@U1>" ≠ "Alice: hi Alice" :=
  ⟨by decide, by decide⟩

/-- C5: a raw message whose text begins with the command marker
"!summarize" contributes no transcript entry: its step yields none, and
the built transcript equals the transcript of the input with all such
messages removed. -/
theorem command_messages_excluded (usersMap : JsMap) (chats : List SlackMessage) :
    (∀ chat : SlackMessage, jsStartsWith chat.text "!summarize" = true →
        summarizeStep usersMap chat = none) ∧
    chats.filterMap (summarizeStep usersMap) =
      (chats.filter (fun c => !jsStartsWith c.text "!summarize")).filterMap (summarizeStep usersMap) := by
  constructor
  · intro chat h
    unfold summarizeStep
    simp [h]
  · induction chats with
    | nil => rfl
    | cons c cs ih =>
      by_cases h : jsStartsWith c.text "!summarize"
      · simp only [List.filterMap_cons, List.filter_cons, h, Bool.not_true, summarizeStep,
          if_pos, ite_true, Bool.false_eq_true, if_false]
        exact ih
      · simp only [List.filterMap_cons, List.filter_cons, h, Bool.not_false, Bool.true_eq_false,
          if_true, ite_false]
        rw [ih]

/-- Witness for C5 at a concrete command message. -/
theorem command_messages_excluded_witness :
    summarizeStep mapAlice msgCommand = none :=
  (command_messages_excluded mapAlice []).1 msgCommand (by decide)

/-- C4: when the Message Fetcher yields the empty sequence (including a
thrown fetch absorbed to the empty sequence), the pipeline posts
nothing. -/
theorem empty_fetch_no_post (env : Env) (channel : String) (question : Option String)
    (threadTs : Option String) (limit : Int)
    (h : fetchRecentMessages env = []) :
    posts (handleSummarizeRequest env channel question threadTs limit) = [] := by
  unfold handleSummarizeRequest
  rw [h]
  cases threadTs <;> simp [posts, fetchAction, isPost]

/-- Witness for C4 with a throwing fetch call. -/
theorem empty_fetch_no_post_witness :
    posts (handleSummarizeRequest envFetchFail "C1" none none 10) = [] :=
  empty_fetch_no_post envFetchFail "C1" none none 10 (by decide)

/-- Helper: when the model call throws, summarizeText returns the
fallback string, and none of the actions it performs is a post. -/
theorem summarizeText_model_error (env : Env) (chats : List SlackMessage)
    (question : Option String) (hm : env.model = .error ()) :
    ∃ acts, summarizeText env chats question = (acts, "Error summarizing text.") ∧
      acts.filter isPost = [] := by
  unfold summarizeText
  cases hu : getUserMap env (chats.map fun c => c.user) with
  | error e => exact ⟨[], rfl, rfl⟩
  | ok m =>
    rw [hm]
    exact ⟨_, rfl, rfl⟩

/-- C3: if the model invocation throws and the fetched window is
non-empty, the Responder is called exactly once, with exactly the literal
fallback string; no failure escapes the summarization boundary. -/
theorem model_failure_fallback (env : Env) (channel : String) (question : Option String)
    (threadTs : Option String) (limit : Int)
    (hm : env.model = .error ()) (hf : fetchRecentMessages env ≠ []) :
    posts (handleSummarizeRequest env channel question threadTs limit) =
      [Action.post channel "Error summarizing text." threadTs] := by
  obtain ⟨acts, hst, hfil⟩ := summarizeText_model_error env (fetchRecentMessages env) question hm
  have hlen : 0 < (fetchRecentMessages env).length := List.length_pos.mpr hf
  unfold handleSummarizeRequest posts
  simp only [gt_iff_lt, hlen, if_true, ite_true, hst, List.filter_cons, List.filter_append, hfil]
  cases threadTs <;> simp [fetchAction, isPost, List.filter]

/-- Witness for C3 with a concrete throwing model call. -/
theorem model_failure_fallback_witness :
    posts (handleSummarizeRequest envModelFail "C1" none none 10) =
      [Action.post "C1" "Error summarizing text." none] :=
  model_failure_fallback envModelFail "C1" none none 10 rfl (by decide)

/-- C7: when the mention text, after stripping the leading mention token,
trims to "--help" or "--version", the handler issues a single post and no
fetch call. -/
theorem help_version_immediate (env : Env) (channel : String) (threadTs : Option String)
    (text : String)
    (h : jsTrim (mentionPrompt text) = "--help" ∨ jsTrim (mentionPrompt text) = "--version") :
    fetches (appMentionHandler env channel threadTs text) = [] ∧
    ∃ reply, appMentionHandler env channel threadTs text = [Action.post channel reply threadTs] := by
  rcases h with h | h <;>
    simp [appMentionHandler, h, fetches, isFetch, List.filter]

/-- Witness for C7 at a concrete help trigger. -/
theorem help_version_immediate_witness :
    fetches (appMentionHandler envIdle "C1" none "<@U07AF4DJWRH> --help") = [] ∧
    ∃ reply, appMentionHandler envIdle "C1" none "<@U07AF4DJWRH> --help" =
      [Action.post "C1" reply none] :=
  help_version_immediate envIdle "C1" none "<@U07AF4DJWRH> --help" (Or.inl (by decide))

/-- C8 (counterexample): the first capture group of the message pattern
includes the surrounding quote characters, so the question text carried
by the intent is the quoted string, not the bare question. -/
theorem question_keeps_quotes :
    matchSummarizePattern "!summarize \"what was decided?\" 5" =
      some (some "\"what was decided?\"", "5") ∧
    some "\"what was decided?\"" ≠ some "what was decided?" :=
  ⟨by decide, by decide⟩

/-- C8 (amended): the scenario trigger yields the question intent with
the quoted text and limit 5, the fetch is issued with limit 5, and the
last prompt entry is the question marker followed by the quoted question
text. -/
theorem question_scenario :
    appMessageHandler envScenario "C1" none "!summarize \"what was decided?\" 5" =
      [Action.fetchHistory "C1" 5,
       Action.modelCall [systemPrompt (some "\"what was decided?\""),
         ⟨"user", "Alice: hello", some "Alice"⟩,
         ⟨"user", "@#*&Question: \"what was decided?\"", some "definetly not a bot"⟩],
       Action.post "C1" "S" none] := by decide

/-- C2 (counterexample): a mention trigger with limit clause "-5" parses
to the negative limit -5, which is handed to the fetch stage: the limit
used downstream is not a positive integer. -/
theorem negative_limit_used :
    appMentionHandler envIdle "C1" none "<@U07AF4DJWRH> summarize --limit -5" =
      [Action.fetchHistory "C1" (-5)] ∧ ¬ (0 < (-5 : Int)) :=
  ⟨by decide, by decide⟩

/-- C9 (counterexample): a thrown users.info call propagates out of
getUserMap instead of mapping the identifier to the fallback name: no
user map is returned at all. -/
theorem lookup_throw_propagates :
    getUserMap envLookupFail ["U1"] = .error () := by decide

/-- Helper: on a list holding the key, updating every matching entry in
place puts the new pair at the position `find?` reaches first. -/
theorem find_entry_map_upd (k v : String) :
    ∀ l : List (String × String), l.any (fun e => e.1 = k) = true →
      (l.map (fun e => if e.1 = k then (k, v) else e)).find? (fun e => e.1 = k) = some (k, v) := by
  intro l
  induction l with
  | nil => intro h; simp at h
  | cons a as ih =>
    intro h
    by_cases ha : a.1 = k
    · simp [List.find?, ha]
    · have h2 : as.any (fun e => e.1 = k) = true := by simpa [ha] using h
      simp [List.find?, ha, ih h2]

/-- Helper: updating the entries of one key in place leaves `find?` for
any other key unchanged. -/
theorem find_entry_map_upd_ne (k v k2 : String) (hne : k2 ≠ k) :
    ∀ l : List (String × String),
      (l.map (fun e => if e.1 = k then (k, v) else e)).find? (fun e => e.1 = k2) =
        l.find? (fun e => e.1 = k2) := by
  intro l
  induction l with
  | nil => rfl
  | cons a as ih =>
    by_cases ha : a.1 = k
    · have hkk2 : ¬ k = k2 := fun hh => hne hh.symm
      have hak2 : ¬ a.1 = k2 := by
        rw [ha]
        exact hkk2
      simp [List.find?, ha, hkk2, hak2, ih]
    · by_cases ha2 : a.1 = k2 <;> simp [List.find?, ha, ha2, hne, ih]

/-- Map.set then Map.get on the same key yields the written value. -/
theorem JsMap.get_set_self (m : JsMap) (k v : String) : (m.set k v).get? k = some v := by
  by_cases h : m.entries.any (fun e => e.1 = k) = true
  · unfold JsMap.set JsMap.get?
    simp only [h, ite_true]
    rw [find_entry_map_upd k v m.entries h]
    rfl
  · have hfalse : m.entries.any (fun e => e.1 = k) = false := by
      cases hh : m.entries.any (fun e => e.1 = k) with
      | true => exact absurd hh h
      | false => rfl
    have hnone : m.entries.find? (fun e => e.1 = k) = none := by
      rw [List.find?_eq_none]
      intro x hx hpx
      have : m.entries.any (fun e => e.1 = k) = true := List.any_eq_true.mpr ⟨x, hx, hpx⟩
      exact h this
    unfold JsMap.set JsMap.get?
    simp [hfalse, List.find?_append, hnone, List.find?]

/-- Map.set leaves Map.get at any other key unchanged. -/
theorem JsMap.get_set_ne (m : JsMap) (k v k2 : String) (hne : k2 ≠ k) :
    (m.set k v).get? k2 = m.get? k2 := by
  by_cases h : m.entries.any (fun e => e.1 = k) = true
  · unfold JsMap.set JsMap.get?
    simp only [h, ite_true]
    rw [find_entry_map_upd_ne k v k2 hne m.entries]
  · have hfalse : m.entries.any (fun e => e.1 = k) = false := by
      cases hh : m.entries.any (fun e => e.1 = k) with
      | true => exact absurd hh h
      | false => rfl
    have hkk2 : ¬ k = k2 := fun hh => hne hh.symm
    unfold JsMap.set JsMap.get?
    simp [hfalse, List.find?_append, List.find?, hkk2]

/-- Helper: the getUserMap loop, started from any accumulator, succeeds
when no lookup in the remaining list throws, covers every remaining
identifier with its resolved name, and leaves other keys untouched. -/
theorem getUserMapGo_spec (env : Env) :
    ∀ (users : List String) (m0 : JsMap),
      (∀ u ∈ users, env.lookup u ≠ .error ()) →
      ∃ m, getUserMapGo env users m0 = .ok m ∧
        (∀ u ∈ users, m.get? u = some (resolvedName env u)) ∧
        (∀ k, k ∉ users → m.get? k = m0.get? k) := by
  intro users
  induction users with
  | nil =>
    intro m0 h
    exact ⟨m0, rfl, by simp, fun k hk => rfl⟩
  | cons u rest ih =>
    intro m0 h
    have hu : env.lookup u ≠ .error () := h u (List.mem_cons_self u rest)
    cases hl : env.lookup u with
    | error e => cases e; exact absurd hl hu
    | ok name =>
      obtain ⟨m, hgo, hmem, hframe⟩ :=
        ih (m0.set u (jsOrUnknown name)) (fun x hx => h x (List.mem_cons_of_mem u hx))
      refine ⟨m, ?_, ?_, ?_⟩
      · unfold getUserMapGo
        rw [hl]
        exact hgo
      · intro x hx
        rcases List.mem_cons.mp hx with rfl | hx2
        · by_cases hxr : x ∈ rest
          · exact hmem x hxr
          · rw [hframe x hxr, JsMap.get_set_self]
            simp [resolvedName, hl]
        · exact hmem x hx2
      · intro k hk
        have hk1 : k ≠ u := fun he => hk (he ▸ List.mem_cons_self u rest)
        have hk2 : k ∉ rest := fun he => hk (List.mem_cons_of_mem u he)
        rw [hframe k hk2, JsMap.get_set_ne m0 u (jsOrUnknown name) k hk1]

/-- C9 (amended): when no users.info call throws, the User Resolver
returns a map holding an entry for every identifier passed in, each bound
to the resolved display name, with the literal fallback name "Unknown"
for identifiers whose response carries no name; a thrown call instead
propagates to the caller. -/
theorem getUserMap_covers (env : Env) (users : List String)
    (h : ∀ u ∈ users, env.lookup u ≠ .error ()) :
    ∃ m, getUserMap env users = .ok m ∧
      ∀ u ∈ users, m.get? u = some (resolvedName env u) := by
  obtain ⟨m, hgo, hmem, _⟩ := getUserMapGo_spec env users ⟨[]⟩ h
  exact ⟨m, hgo, hmem⟩

/-- Witness for C9 on identifiers (with a duplicate) whose lookups all
answer without a usable name, so each maps to "Unknown". -/
theorem getUserMap_covers_witness :
    ∃ m, getUserMap envIdle ["U1", "U2", "U1"] = .ok m ∧
      ∀ u ∈ ["U1", "U2", "U1"], m.get? u = some (resolvedName envIdle u) :=
  getUserMap_covers envIdle ["U1", "U2", "U1"] (by decide)

/-- Helper: an ASCII digit is not JavaScript whitespace. -/
theorem digit_not_ws (c : Char) (h : isAsciiDigit c = true) : jsWhitespace c = false := by
  simp [isAsciiDigit] at h
  simp [jsWhitespace]
  omega

/-- Helper: an ASCII digit differs from any character that is not one. -/
theorem digit_ne (c x : Char) (hc : isAsciiDigit c = true) (hx : isAsciiDigit x = false) :
    c ≠ x := by
  intro he
  rw [he, hx] at hc
  exact Bool.false_ne_true hc

/-- Helper: a list of ASCII digits is untouched by the digit takeWhile. -/
theorem takeWhile_digits_self (l : List Char) (h : ∀ c ∈ l, isAsciiDigit c = true) :
    l.takeWhile isAsciiDigit = l :=
  List.takeWhile_eq_self_iff.mpr h

/-- Helper: parseInt on a pure digit string is its non-negative decimal
value, NaN when the string is empty. -/
theorem jsParseIntChars_digits (ds : List Char) (h : ∀ c ∈ ds, isAsciiDigit c = true) :
    jsParseIntChars ds =
      if ds.isEmpty then none else some ((digitsVal 10 ds : Nat) : Int) := by
  cases ds with
  | nil => rfl
  | cons d rest =>
    have hd : isAsciiDigit d = true := h d (List.mem_cons_self d rest)
    have hdrop : (d :: rest).dropWhile jsWhitespace = d :: rest :=
      List.dropWhile_cons_of_neg (by simp [digit_not_ws d hd])
    have hminus : d ≠ '-' := digit_ne d '-' hd (by decide)
    have hplus : d ≠ '+' := digit_ne d '+' hd (by decide)
    unfold jsParseIntChars
    rw [hdrop]
    have hsign : ¬ ((d :: rest).head? = some '-' ∨ (d :: rest).head? = some '+') := by
      simp [hminus, hplus]
    have hsign2 : ¬ ((d :: rest).head? = some '-') := by simp [hminus]
    rw [if_neg hsign, if_neg hsign2]
    unfold jsParseIntBody
    have hhex : ¬ ((d :: rest).head? = some '0' ∧
        ((d :: rest).tail.head? = some 'x' ∨ (d :: rest).tail.head? = some 'X')) := by
      rintro ⟨h0, hx⟩
      cases rest with
      | nil => simp at hx
      | cons e rest2 =>
        have he : isAsciiDigit e = true := h e (by simp)
        rcases hx with hx | hx
        · simp at hx
          exact digit_ne e 'x' he (by decide) hx
        · simp at hx
          exact digit_ne e 'X' he (by decide) hx
    rw [if_neg hhex]
    unfold parseDigits
    have h10 : isRadixDigit 10 = isAsciiDigit := by
      funext c
      simp [isRadixDigit]
    rw [h10, takeWhile_digits_self (d :: rest) h]
    simp

/-- Helper: with a limit clause present, the mention-trigger limit is
the parsed-or-10 value of the trimmed text after the clause. -/
theorem parseMentionLimit_limit (prompt : String)
    (hinc : jsIncludes prompt "--limit" = true) :
    (parseMentionLimit prompt).2 =
      jsOr10 (jsParseInt (jsTrim ((jsSplit prompt "--limit").getD 1 ""))) := by
  unfold parseMentionLimit
  rw [if_pos hinc]

/-- Helper: with no limit clause, the mention-trigger limit is 10. -/
theorem parseMentionLimit_default (prompt : String)
    (hinc : ¬ jsIncludes prompt "--limit" = true) :
    (parseMentionLimit prompt).2 = 10 := by
  unfold parseMentionLimit
  rw [if_neg hinc]

/-- C2 (amended): a limit clause whose string parses to NaN makes the
mention-trigger limit exactly 10; in general that limit is 10 (the
NaN/zero/absent cases) or the very integer parseInt returns, which may be
negative, so positivity is not guaranteed; the pattern-trigger limit,
whose capture group is a pure digit string, is always positive. -/
theorem limit_defaulting (prompt : String) :
    (jsParseInt (jsTrim ((jsSplit prompt "--limit").getD 1 "")) = none →
      (parseMentionLimit prompt).2 = 10) ∧
    ((parseMentionLimit prompt).2 = 10 ∨
      ∃ n : Int, n ≠ 0 ∧
        jsParseInt (jsTrim ((jsSplit prompt "--limit").getD 1 "")) = some n ∧
        (parseMentionLimit prompt).2 = n) ∧
    (∀ (s : String) (g : Option String × String),
      matchSummarizePattern s = some g → 0 < jsOr10 (jsParseInt g.2)) := by
  refine ⟨?_, ?_, ?_⟩
  · intro hp
    by_cases hinc : jsIncludes prompt "--limit" = true
    · rw [parseMentionLimit_limit prompt hinc, hp]
      rfl
    · exact parseMentionLimit_default prompt hinc
  · by_cases hinc : jsIncludes prompt "--limit" = true
    · cases hp : jsParseInt (jsTrim ((jsSplit prompt "--limit").getD 1 "")) with
      | none =>
        refine Or.inl ?_
        rw [parseMentionLimit_limit prompt hinc, hp]
        rfl
      | some n =>
        by_cases hz : n = 0
        · refine Or.inl ?_
          rw [parseMentionLimit_limit prompt hinc, hp]
          simp [jsOr10, hz]
        · refine Or.inr ⟨n, hz, rfl, ?_⟩
          rw [parseMentionLimit_limit prompt hinc, hp]
          simp [jsOr10, hz]
    · exact Or.inl (parseMentionLimit_default prompt hinc)
  · intro s g hg
    unfold matchSummarizePattern at hg
    rw [Option.map_eq_some'] at hg
    obtain ⟨rest, hrest, hval⟩ := hg
    subst hval
    have hall : ∀ c ∈ ((quotedGroup (rest.dropWhile jsWhitespace)).2.dropWhile
        jsWhitespace).takeWhile isAsciiDigit, isAsciiDigit c = true :=
      fun c hc => List.mem_takeWhile_imp hc
    show 0 < jsOr10 (jsParseIntChars (((quotedGroup (rest.dropWhile jsWhitespace)).2.dropWhile
      jsWhitespace).takeWhile isAsciiDigit))
    rw [jsParseIntChars_digits _ hall]
    by_cases he : (((quotedGroup (rest.dropWhile jsWhitespace)).2.dropWhile
        jsWhitespace).takeWhile isAsciiDigit).isEmpty = true
    · rw [if_pos he]
      simp [jsOr10]
    · rw [if_neg he]
      by_cases hz : ((digitsVal 10 (((quotedGroup (rest.dropWhile jsWhitespace)).2.dropWhile
          jsWhitespace).takeWhile isAsciiDigit) : Nat) : Int) = 0
      · simp [jsOr10, hz]
      · simp [jsOr10, hz]
        omega

/-- Witness for C2: a limit clause that parses to NaN falls back to 10,
and the pattern trigger on a digit limit yields a positive limit. -/
theorem limit_defaulting_witness :
    (parseMentionLimit "summarize --limit abc").2 = 10 ∧
    0 < jsOr10 (jsParseInt (((none : Option String), "5") : Option String × String).2) :=
  ⟨(limit_defaulting "summarize --limit abc").1 (by decide),
   (limit_defaulting "x").2.2 "!summarize 5" ((none : Option String), "5") (by decide)⟩

end SlackBot
